import Mathlib

/-! # Verification of the phone-VR stereo rendering core

This development shallowly embeds the rendering core of the vr-glasses
application: the viewport layout and uniform marshalling of
`src/gl/renderer.ts`, the parameter record of `src/types.ts`, and the
per-pixel transform chain of the two fragment shaders (`fragmentWebGL1`,
`fragmentWebGL2`).  Canvas dimensions are embedded as natural numbers
(DOM canvas sizes are unsigned integers and every subtraction in the
layout is nonneg on that domain), client dimensions and the device pixel
ratio as rationals, and shader floating point as exact real arithmetic,
so identity claims hold exactly. -/

namespace VRApp

/-- Two-component vector, models GLSL vec2. -/
@[ext] structure Vec2 where
  x : ℝ
  y : ℝ

/-- Three-component color vector, models GLSL vec3 (rgb). -/
@[ext] structure Vec3 where
  r : ℝ
  g : ℝ
  b : ℝ

noncomputable section

namespace Vec2

/-- Componentwise vector addition. -/
def add (a b : Vec2) : Vec2 := ⟨a.x + b.x, a.y + b.y⟩

/-- Componentwise vector subtraction. -/
def sub (a b : Vec2) : Vec2 := ⟨a.x - b.x, a.y - b.y⟩

/-- Vector plus broadcast scalar, models GLSL v + s. -/
def adds (a : Vec2) (s : ℝ) : Vec2 := ⟨a.x + s, a.y + s⟩

/-- Vector minus broadcast scalar, models GLSL v - s. -/
def subs (a : Vec2) (s : ℝ) : Vec2 := ⟨a.x - s, a.y - s⟩

/-- Vector times scalar. -/
def smul (a : Vec2) (s : ℝ) : Vec2 := ⟨a.x * s, a.y * s⟩

/-- Vector divided by scalar. -/
def divs (a : Vec2) (s : ℝ) : Vec2 := ⟨a.x / s, a.y / s⟩

/-- GLSL dot for vec2. -/
def dot (a b : Vec2) : ℝ := a.x * b.x + a.y * b.y

/-- GLSL length for vec2. -/
def length (a : Vec2) : ℝ := Real.sqrt (dot a a)

/-- GLSL abs for vec2 (componentwise). -/
def absv (a : Vec2) : Vec2 := ⟨|a.x|, |a.y|⟩

/-- GLSL max(v, s) against a broadcast scalar. -/
def maxs (a : Vec2) (s : ℝ) : Vec2 := ⟨max a.x s, max a.y s⟩

end Vec2

namespace Vec3

/-- Componentwise color addition. -/
def add (a b : Vec3) : Vec3 := ⟨a.r + b.r, a.g + b.g, a.b + b.b⟩

/-- Color plus broadcast scalar, models GLSL c + s. -/
def adds (a : Vec3) (s : ℝ) : Vec3 := ⟨a.r + s, a.g + s, a.b + s⟩

/-- Color minus broadcast scalar, models GLSL c - s. -/
def subs (a : Vec3) (s : ℝ) : Vec3 := ⟨a.r - s, a.g - s, a.b - s⟩

/-- Color times scalar. -/
def smul (a : Vec3) (s : ℝ) : Vec3 := ⟨a.r * s, a.g * s, a.b * s⟩

/-- GLSL dot for vec3. -/
def dot (a b : Vec3) : ℝ := a.r * b.r + a.g * b.g + a.b * b.b

/-- GLSL pow(c, vec3(e)) with a broadcast real exponent (componentwise
real power; the shader only applies it to bases previously clamped to
[0,1]). -/
def rpow (a : Vec3) (e : ℝ) : Vec3 := ⟨Real.rpow a.r e, Real.rpow a.g e, Real.rpow a.b e⟩

end Vec3

/-- GLSL step(edge, x): 0.0 when x < edge, else 1.0. -/
def step (edge x : ℝ) : ℝ := if x < edge then 0 else 1

/-- GLSL clamp(x, lo, hi) = min(max(x, lo), hi). -/
def clampR (x lo hi : ℝ) : ℝ := min (max x lo) hi

/-- GLSL mix(a, b, t) = a*(1-t) + b*t. -/
def mixR (a b t : ℝ) : ℝ := a * (1 - t) + b * t

/-- GLSL smoothstep(e0, e1, x). -/
def smoothstep (e0 e1 x : ℝ) : ℝ :=
  let t := clampR ((x - e0) / (e1 - e0)) 0 1
  t * t * (3 - 2 * t)

/-- GLSL fract(x) = x - floor(x). -/
def glFract (x : ℝ) : ℝ := x - ⌊x⌋

/-- GLSL mix on vec2 with a scalar blend factor. -/
def mix2 (a b : Vec2) (t : ℝ) : Vec2 := ⟨mixR a.x b.x t, mixR a.y b.y t⟩

/-- GLSL mix on vec3 with a scalar blend factor. -/
def mix3 (a b : Vec3) (t : ℝ) : Vec3 := ⟨mixR a.r b.r t, mixR a.g b.g t, mixR a.b b.b t⟩

/-- GLSL clamp on vec2 with broadcast scalar bounds. -/
def clamp2 (v : Vec2) (lo hi : ℝ) : Vec2 := ⟨clampR v.x lo hi, clampR v.y lo hi⟩

/-- GLSL clamp on vec3 with broadcast scalar bounds. -/
def clamp3 (c : Vec3) (lo hi : ℝ) : Vec3 :=
  ⟨clampR c.r lo hi, clampR c.g lo hi, clampR c.b lo hi⟩

/-- Filter mode enum of src/types.ts (`"none" | "amber" | "deepblue" | "edge"`). -/
inductive FilterMode where
  | none
  | amber
  | deepblue
  | edge
deriving DecidableEq

/-- The VRSettings record of src/types.ts (the external ParameterSet). -/
structure VRSettings where
  leftOffsetX : ℝ
  leftOffsetY : ℝ
  rightOffsetX : ℝ
  rightOffsetY : ℝ
  scale : ℝ
  separation : ℝ
  contrast : ℝ
  brightness : ℝ
  gamma : ℝ
  highlights : ℝ
  shadows : ℝ
  temperature : ℝ
  distortionEnabled : Bool
  k1 : ℝ
  k2 : ℝ
  sphereStrength : ℝ
  sphereDiameter : ℝ
  filterMode : FilterMode
  magnifierEnabled : Bool
  magnifierZoom : ℝ
  magnifierSize : ℝ
  calibration : Bool

/-- The defaultSettings constant of src/types.ts. -/
def defaultSettings : VRSettings :=
  { leftOffsetX := 0
    leftOffsetY := 0
    rightOffsetX := 0
    rightOffsetY := 0
    scale := 1.0
    separation := 0.02
    contrast := 1.0
    brightness := 0.0
    gamma := 1.0
    highlights := 0.0
    shadows := 0.0
    temperature := 0.0
    distortionEnabled := true
    k1 := 35
    k2 := 20
    sphereStrength := 0
    sphereDiameter := 100
    filterMode := FilterMode.none
    magnifierEnabled := false
    magnifierZoom := 1.6
    magnifierSize := 0.44
    calibration := false }

/-- Uniform set declared by both fragment shaders (fragmentWebGL1 and
fragmentWebGL2 declare exactly the same uniforms).  The renderer also
writes uTemperature and uMagnifySize, but neither shader declares them,
so getUniformLocation returns null for those names and setUniform1f
drops the write (renderer.ts). -/
structure Uniforms where
  uContrast : ℝ
  uBrightness : ℝ
  uGamma : ℝ
  uHighlights : ℝ
  uShadows : ℝ
  uScale : ℝ
  uOffset : Vec2
  uSeparation : ℝ
  uEyeSign : ℝ
  uVideoAspect : ℝ
  uMagnifyEnabled : ℝ
  uMagnifyZoom : ℝ
  uSphereStrength : ℝ
  uSphereRadius : ℝ
  uK1 : ℝ
  uK2 : ℝ
  uDistortEnabled : ℝ
  uCalibrate : ℝ
  uResolution : Vec2
  uFilterMode : ℝ
  uTexel : Vec2

/-- Uniform names declared by the fragmentWebGL1 shader source, in
declaration order. -/
def fragmentWebGL1UniformNames : List String :=
  ["uTexture", "uContrast", "uBrightness", "uGamma", "uHighlights", "uShadows",
   "uScale", "uOffset", "uSeparation", "uEyeSign", "uVideoAspect",
   "uMagnifyEnabled", "uMagnifyZoom", "uSphereStrength", "uSphereRadius",
   "uK1", "uK2", "uDistortEnabled", "uCalibrate", "uResolution",
   "uFilterMode", "uTexel"]

/-- Uniform names declared by the fragmentWebGL2 shader source, in
declaration order. -/
def fragmentWebGL2UniformNames : List String :=
  ["uTexture", "uContrast", "uBrightness", "uGamma", "uHighlights", "uShadows",
   "uScale", "uOffset", "uSeparation", "uEyeSign", "uVideoAspect",
   "uMagnifyEnabled", "uMagnifyZoom", "uSphereStrength", "uSphereRadius",
   "uK1", "uK2", "uDistortEnabled", "uCalibrate", "uResolution",
   "uFilterMode", "uTexel"]

/-- The `distortionScale` constant of renderer.ts drawEye. -/
def distortionScale : ℝ := 0.1

/-- The filter-mode-to-index nested ternary in renderer.ts drawEye:
amber = 1, deepblue = 2, edge = 3, otherwise 0. -/
def filterIndex : FilterMode → ℝ
  | FilterMode.amber => 1
  | FilterMode.deepblue => 2
  | FilterMode.edge => 3
  | FilterMode.none => 0

/-- A single uniform write issued by drawEye (uniform1f or uniform2f). -/
inductive UniformWrite where
  | f1 (value : ℝ)
  | f2 (vx vy : ℝ)
deriving DecidableEq

/-- The ordered list of uniform writes drawEye issues each call
(renderer.ts drawEye body), keyed by the GLSL uniform name each write
targets.  A write only lands if the shader declares that uniform (the
setUniform helpers skip null locations). -/
def drawEyeWrites (eyeSign offsetX offsetY videoAspect viewportWidth viewportHeight : ℝ)
    (s : VRSettings) : List (String × UniformWrite) :=
  [("uContrast", UniformWrite.f1 s.contrast),
   ("uBrightness", UniformWrite.f1 s.brightness),
   ("uGamma", UniformWrite.f1 s.gamma),
   ("uHighlights", UniformWrite.f1 s.highlights),
   ("uShadows", UniformWrite.f1 s.shadows),
   ("uTemperature", UniformWrite.f1 s.temperature),
   ("uScale", UniformWrite.f1 s.scale),
   ("uOffset", UniformWrite.f2 offsetX offsetY),
   ("uSeparation", UniformWrite.f1 s.separation),
   ("uEyeSign", UniformWrite.f1 eyeSign),
   ("uVideoAspect", UniformWrite.f1 videoAspect),
   ("uMagnifyEnabled", UniformWrite.f1 (if s.magnifierEnabled then 1 else 0)),
   ("uMagnifyZoom", UniformWrite.f1 s.magnifierZoom),
   ("uMagnifySize", UniformWrite.f1 s.magnifierSize),
   ("uSphereStrength", UniformWrite.f1 (s.sphereStrength / 100)),
   ("uSphereRadius", UniformWrite.f1 (0.5 * (s.sphereDiameter / 100))),
   ("uFilterMode", UniformWrite.f1 (filterIndex s.filterMode)),
   ("uK1", UniformWrite.f1 (s.k1 * distortionScale)),
   ("uK2", UniformWrite.f1 (s.k2 * distortionScale)),
   ("uDistortEnabled", UniformWrite.f1 (if s.distortionEnabled then 1 else 0)),
   ("uCalibrate", UniformWrite.f1 (if s.calibration then 1 else 0)),
   ("uResolution", UniformWrite.f2 viewportWidth viewportHeight)]

/-- The uniform record as the shader program receives it after one
drawEye call (renderer.ts drawEye): the writes of `drawEyeWrites` that
target a declared uniform, plus uTexel which render sets once per frame
before the two eye draws.  The uTemperature and uMagnifySize writes
target no declared uniform and are dropped. -/
def drawEyeUniforms (eyeSign offsetX offsetY videoAspect viewportWidth viewportHeight : ℝ)
    (texel : Vec2) (s : VRSettings) : Uniforms :=
  { uContrast := s.contrast
    uBrightness := s.brightness
    uGamma := s.gamma
    uHighlights := s.highlights
    uShadows := s.shadows
    uScale := s.scale
    uOffset := ⟨offsetX, offsetY⟩
    uSeparation := s.separation
    uEyeSign := eyeSign
    uVideoAspect := videoAspect
    uMagnifyEnabled := if s.magnifierEnabled then 1 else 0
    uMagnifyZoom := s.magnifierZoom
    uSphereStrength := s.sphereStrength / 100
    uSphereRadius := 0.5 * (s.sphereDiameter / 100)
    uK1 := s.k1 * distortionScale
    uK2 := s.k2 * distortionScale
    uDistortEnabled := if s.distortionEnabled then 1 else 0
    uCalibrate := if s.calibration then 1 else 0
    uResolution := ⟨viewportWidth, viewportHeight⟩
    uFilterMode := filterIndex s.filterMode
    uTexel := texel }

/-- The applyColor function shared verbatim by both fragment shaders:
contrast around the midpoint, additive brightness, clamp, gamma with the
exponent divisor floored at 0.001, luminance-masked shadow/highlight
boosts, and a final clamp to [0,1]. -/
def applyColor (u : Uniforms) (color : Vec3) : Vec3 :=
  let c1 := Vec3.adds (Vec3.smul (Vec3.subs color 0.5) u.uContrast) 0.5
  let c2 := Vec3.adds c1 u.uBrightness
  let c3 := clamp3 c2 0.0 1.0
  let c4 := Vec3.rpow c3 (1.0 / max u.uGamma 0.001)
  let lum := Vec3.dot c4 ⟨0.2126, 0.7152, 0.0722⟩
  let shadowMask := 1.0 - smoothstep 0.2 0.55 lum
  let highlightMask := smoothstep 0.55 0.9 lum
  let c5 := Vec3.adds c4 (shadowMask * u.uShadows * 0.35)
  let c6 := Vec3.adds c5 (highlightMask * u.uHighlights * 0.35)
  clamp3 c6 0.0 1.0

/-- The luminance helper shared by both fragment shaders. -/
def luminance (color : Vec3) : ℝ := Vec3.dot color ⟨0.2126, 0.7152, 0.0722⟩

/-- The applyDistortion function shared verbatim by both fragment
shaders: the even radial polynomial warp, gated by a continuous
step/mix combination rather than a branch. -/
def applyDistortion (uK1 uK2 uDistortEnabled : ℝ) (uv center : Vec2) : Vec2 :=
  let enabled := step 0.5 uDistortEnabled
  let d := Vec2.sub uv center
  let r2 := Vec2.dot d d
  let factor := 1.0 + uK1 * r2 + uK2 * r2 * r2
  let warped := Vec2.add center (Vec2.smul d factor)
  mix2 uv warped enabled

/-- The lineMask helper shared verbatim by both fragment shaders. -/
def lineMask (v count thickness : ℝ) : ℝ :=
  let cell := |glFract (v * count) - 0.5|
  1.0 - smoothstep 0.0 thickness cell

/-- The aspect-correction and scale/offset steps at the top of both
fragment shader mains: compress the long axis by the video aspect, apply
the shared zoom around the midpoint, then add the per-eye offset and the
eyeSign-directed separation shift. -/
def adjustedUV (u : Uniforms) (vUV : Vec2) : Vec2 :=
  let uv := if u.uVideoAspect > 1.0 then
      ⟨(vUV.x - 0.5) / u.uVideoAspect + 0.5, vUV.y⟩
    else
      ⟨vUV.x, (vUV.y - 0.5) * u.uVideoAspect + 0.5⟩
  let uv := Vec2.adds (Vec2.divs (Vec2.subs uv 0.5) u.uScale) 0.5
  let eyeShift : Vec2 := ⟨u.uEyeSign * u.uSeparation, 0.0⟩
  Vec2.add uv (Vec2.add u.uOffset eyeShift)

/-- The center point both fragment shader mains use for distortion,
spherize, and the magnifier: vec2(0.5) + uOffset + eyeShift. -/
def centerPoint (u : Uniforms) : Vec2 :=
  Vec2.add (Vec2.add ⟨0.5, 0.5⟩ u.uOffset) ⟨u.uEyeSign * u.uSeparation, 0.0⟩

/-- The spherical-warp block shared verbatim by both fragment shader
mains: active only when the clamped sphere strength exceeds 0.001, it
arcsine-remaps the screen radius inside the sphere radius and feathers
between the distorted coordinate and the sphere-mapped one. -/
def sphereStage (u : Uniforms) (vUV center warped : Vec2) : Vec2 :=
  let sphereStrength := clampR u.uSphereStrength 0.0 1.0
  let sphereRadius := max u.uSphereRadius 0.00001
  let screenDelta := Vec2.subs vUV 0.5
  let screenR := Vec2.length screenDelta
  let normR := screenR / sphereRadius
  if sphereStrength > 0.001 then
    let clampedR := clampR normR 0.0 1.0
    let sphereNorm := Real.arcsin clampedR / 1.57079632679
    let dir := if screenR > 0.00001 then Vec2.divs screenDelta screenR else (⟨0.0, 0.0⟩ : Vec2)
    let sphereDelta := Vec2.divs (Vec2.smul dir (sphereNorm * sphereRadius)) u.uScale
    let sphereUV := Vec2.add center sphereDelta
    let feather := mixR 0.45 0.0 sphereStrength
    let mask := if feather > 0.0001 then 1.0 - smoothstep (1.0 - feather) 1.0 normR
      else step normR 1.0
    mix2 warped sphereUV mask
  else warped

/-- The warped sampling coordinate both fragment shader mains hand to
texture sampling: aspect/scale/offset adjustment, then radial
distortion, then the spherical warp. -/
def warpedCoord (u : Uniforms) (vUV : Vec2) : Vec2 :=
  sphereStage u vUV (centerPoint u)
    (applyDistortion u.uK1 u.uK2 u.uDistortEnabled (adjustedUV u vUV) (centerPoint u))

/-- The Sobel gradient magnitude over 8 neighboring luminance samples,
shared by both sobelEdge variants (they differ only in the final step
threshold). -/
def sobelGradient (tex : Vec2 → Vec3) (u : Uniforms) (uv : Vec2) : ℝ :=
  let t := u.uTexel
  let tl := luminance (tex (Vec2.add uv ⟨-t.x, -t.y⟩))
  let tc := luminance (tex (Vec2.add uv ⟨0.0, -t.y⟩))
  let tr := luminance (tex (Vec2.add uv ⟨t.x, -t.y⟩))
  let ml := luminance (tex (Vec2.add uv ⟨-t.x, 0.0⟩))
  let mr := luminance (tex (Vec2.add uv ⟨t.x, 0.0⟩))
  let bl := luminance (tex (Vec2.add uv ⟨-t.x, t.y⟩))
  let bc := luminance (tex (Vec2.add uv ⟨0.0, t.y⟩))
  let br := luminance (tex (Vec2.add uv ⟨t.x, t.y⟩))
  let gx := -tl + tr + -2.0 * ml + 2.0 * mr + -bl + br
  let gy := -tl - 2.0 * tc - tr + bl + 2.0 * bc + br
  Real.sqrt (gx * gx + gy * gy)

/-- The sobelEdge function of fragmentWebGL1: threshold 0.1. -/
def sobelEdgeWebGL1 (tex : Vec2 → Vec3) (u : Uniforms) (uv : Vec2) : ℝ :=
  step 0.1 (sobelGradient tex u uv)

/-- The sobelEdge function of fragmentWebGL2: threshold 0.6. -/
def sobelEdgeWebGL2 (tex : Vec2 → Vec3) (u : Uniforms) (uv : Vec2) : ℝ :=
  step 0.6 (sobelGradient tex u uv)

/-- The filter-mode branch chain of the fragmentWebGL1 main: amber and
deepblue duotones, and the edge mode blending 30% toward black on Sobel
edges. -/
def filterStageWebGL1 (tex : Vec2 → Vec3) (u : Uniforms) (warped : Vec2) (color : Vec3) : Vec3 :=
  if u.uFilterMode > 0.5 ∧ u.uFilterMode < 1.5 then
    let lum := luminance color
    let mask := step 0.52 lum
    mix3 ⟨0.03, 0.03, 0.02⟩ ⟨1.0, 0.82, 0.12⟩ mask
  else if u.uFilterMode > 1.5 ∧ u.uFilterMode < 2.5 then
    let lum := luminance color
    let mask := step 0.52 lum
    mix3 ⟨0.04, 0.06, 0.18⟩ ⟨0.92, 0.96, 1.0⟩ mask
  else if u.uFilterMode > 2.5 then
    let edge := sobelEdgeWebGL1 tex u warped
    mix3 color ⟨0.0, 0.0, 0.0⟩ (edge * 0.3)
  else color

/-- The filter-mode branch chain of the fragmentWebGL2 main: identical
duotones, but the edge mode blends fully by the edge mask. -/
def filterStageWebGL2 (tex : Vec2 → Vec3) (u : Uniforms) (warped : Vec2) (color : Vec3) : Vec3 :=
  if u.uFilterMode > 0.5 ∧ u.uFilterMode < 1.5 then
    let lum := luminance color
    let mask := step 0.52 lum
    mix3 ⟨0.03, 0.03, 0.02⟩ ⟨1.0, 0.82, 0.12⟩ mask
  else if u.uFilterMode > 1.5 ∧ u.uFilterMode < 2.5 then
    let lum := luminance color
    let mask := step 0.52 lum
    mix3 ⟨0.04, 0.06, 0.18⟩ ⟨0.92, 0.96, 1.0⟩ mask
  else if u.uFilterMode > 2.5 then
    let edge := sobelEdgeWebGL2 tex u warped
    mix3 color ⟨0.0, 0.0, 0.0⟩ edge
  else color

/-- The magnifier block shared verbatim by both fragment shader mains:
a zoomed resample about the warp center composited inside a
signed-distance rounded-rectangle mask. -/
def magnifyStage (tex : Vec2 → Vec3) (u : Uniforms) (center warped vUV : Vec2) (color : Vec3) : Vec3 :=
  let magnify := step 0.5 u.uMagnifyEnabled
  if magnify > 0.5 then
    let zoom := max u.uMagnifyZoom 1.0
    let zoomUV := Vec2.add center (Vec2.divs (Vec2.sub warped center) zoom)
    let p := Vec2.subs vUV 0.5
    let box : Vec2 := ⟨0.22, 0.22⟩
    let radius := 0.06
    let q := Vec2.adds (Vec2.sub (Vec2.absv p) box) radius
    let dist := Vec2.length (Vec2.maxs q 0.0) + min (max q.x q.y) 0.0 - radius
    let edge := 0.012
    let mask := 1.0 - smoothstep 0.0 edge dist
    let zoomColor := applyColor u (tex zoomUV)
    mix3 color zoomColor mask
  else color

/-- The calibration overlay block of the fragmentWebGL1 main: a period-6
grid evaluated on the warped coordinate clamped to [0,1], a crosshair on
the screen center, two rings at radii 0.25 and 0.40, with thicknesses
6·px and 1.6·px for px = 1/max(1, min(resolution)); the grid and the
cross/ring overlay are each composited onto the incoming color by mix. -/
def calibrationStageWebGL1 (u : Uniforms) (vUV warped : Vec2) (color : Vec3) : Vec3 :=
  let cal := step 0.5 u.uCalibrate
  if cal > 0.5 then
    let px := 1.0 / max 1.0 (min u.uResolution.x u.uResolution.y)
    let gridThickness := px * 6.0
    let ringThickness := px * 1.6
    let gridUV := clamp2 warped 0.0 1.0
    let grid := max (lineMask gridUV.x 6.0 gridThickness) (lineMask gridUV.y 6.0 gridThickness)
    let crossX := 1.0 - smoothstep 0.0 (gridThickness * 1) |vUV.x - 0.5|
    let crossY := 1.0 - smoothstep 0.0 (gridThickness * 1) |vUV.y - 0.5|
    let cross := max crossX crossY
    let r := Vec2.length (Vec2.subs vUV 0.5)
    let ring1 := 1.0 - smoothstep ringThickness (ringThickness * 3.0) |r - 0.25|
    let ring2 := 1.0 - smoothstep ringThickness (ringThickness * 3.0) |r - 0.4|
    let ringScale := 0.45
    let gridAlpha := grid * 0.8
    let gridColor : Vec3 := ⟨0.08, 0.92, 1.0⟩
    let color := mix3 color gridColor gridAlpha
    let overlay := max cross (max ring1 ring2 * ringScale)
    let overlayColor := mix3 ⟨0.12, 1.0, 0.7⟩ ⟨1.0, 0.7, 0.25⟩ cross
    mix3 color overlayColor (overlay * 0.45)
  else color

/-- The calibration overlay block of the fragmentWebGL2 main: identical
to the WebGL1 one except the crosshair softness uses gridThickness·1.4. -/
def calibrationStageWebGL2 (u : Uniforms) (vUV warped : Vec2) (color : Vec3) : Vec3 :=
  let cal := step 0.5 u.uCalibrate
  if cal > 0.5 then
    let px := 1.0 / max 1.0 (min u.uResolution.x u.uResolution.y)
    let gridThickness := px * 6.0
    let ringThickness := px * 1.6
    let gridUV := clamp2 warped 0.0 1.0
    let grid := max (lineMask gridUV.x 6.0 gridThickness) (lineMask gridUV.y 6.0 gridThickness)
    let crossX := 1.0 - smoothstep 0.0 (gridThickness * 1.4) |vUV.x - 0.5|
    let crossY := 1.0 - smoothstep 0.0 (gridThickness * 1.4) |vUV.y - 0.5|
    let cross := max crossX crossY
    let r := Vec2.length (Vec2.subs vUV 0.5)
    let ring1 := 1.0 - smoothstep ringThickness (ringThickness * 3.0) |r - 0.25|
    let ring2 := 1.0 - smoothstep ringThickness (ringThickness * 3.0) |r - 0.4|
    let ringScale := 0.45
    let gridAlpha := grid * 0.8
    let gridColor : Vec3 := ⟨0.08, 0.92, 1.0⟩
    let color := mix3 color gridColor gridAlpha
    let overlay := max cross (max ring1 ring2 * ringScale)
    let overlayColor := mix3 ⟨0.12, 1.0, 0.7⟩ ⟨1.0, 0.7, 0.25⟩ cross
    mix3 color overlayColor (overlay * 0.45)
  else color

/-- Modelled from the spec: "composited with additive blending over the
graded color, not replacing it" — the same grid/cross/ring masks as the
source calibration overlay, but with the two overlay contributions added
onto the incoming color (clamped to range) instead of mixed into it.
This definition exists only to compare the spec's claimed compositing
against the source's mix-based compositing. -/
def calibrationStageAdditive (u : Uniforms) (vUV warped : Vec2) (color : Vec3) : Vec3 :=
  let cal := step 0.5 u.uCalibrate
  if cal > 0.5 then
    let px := 1.0 / max 1.0 (min u.uResolution.x u.uResolution.y)
    let gridThickness := px * 6.0
    let ringThickness := px * 1.6
    let gridUV := clamp2 warped 0.0 1.0
    let grid := max (lineMask gridUV.x 6.0 gridThickness) (lineMask gridUV.y 6.0 gridThickness)
    let crossX := 1.0 - smoothstep 0.0 (gridThickness * 1) |vUV.x - 0.5|
    let crossY := 1.0 - smoothstep 0.0 (gridThickness * 1) |vUV.y - 0.5|
    let cross := max crossX crossY
    let r := Vec2.length (Vec2.subs vUV 0.5)
    let ring1 := 1.0 - smoothstep ringThickness (ringThickness * 3.0) |r - 0.25|
    let ring2 := 1.0 - smoothstep ringThickness (ringThickness * 3.0) |r - 0.4|
    let ringScale := 0.45
    let gridAlpha := grid * 0.8
    let gridColor : Vec3 := ⟨0.08, 0.92, 1.0⟩
    let overlay := max cross (max ring1 ring2 * ringScale)
    let overlayColor := mix3 ⟨0.12, 1.0, 0.7⟩ ⟨1.0, 0.7, 0.25⟩ cross
    clamp3 (Vec3.add color
      (Vec3.add (Vec3.smul gridColor gridAlpha) (Vec3.smul overlayColor (overlay * 0.45)))) 0.0 1.0
  else color

/-- The fragmentWebGL1 per-pixel main: warp chain, sampling with color
grading, filter composition, magnifier, calibration overlay. -/
def fragMainWebGL1 (tex : Vec2 → Vec3) (u : Uniforms) (vUV : Vec2) : Vec3 :=
  let center := centerPoint u
  let warped := warpedCoord u vUV
  let color := applyColor u (tex warped)
  let color := filterStageWebGL1 tex u warped color
  let color := magnifyStage tex u center warped vUV color
  calibrationStageWebGL1 u vUV warped color

/-- The fragmentWebGL2 per-pixel main: same chain with the WebGL2 filter
and calibration variants. -/
def fragMainWebGL2 (tex : Vec2 → Vec3) (u : Uniforms) (vUV : Vec2) : Vec3 :=
  let center := centerPoint u
  let warped := warpedCoord u vUV
  let color := applyColor u (tex warped)
  let color := filterStageWebGL2 tex u warped color
  let color := magnifyStage tex u center warped vUV color
  calibrationStageWebGL2 u vUV warped color

/-- A per-eye viewport rectangle in device pixels. -/
structure Viewport where
  x : ℕ
  y : ℕ
  width : ℕ
  height : ℕ
deriving DecidableEq

/-- The stereo layout the render callback computes each frame. -/
structure StereoLayout where
  squareSize : ℕ
  offsetX : ℕ
  offsetY : ℕ
  left : Viewport
  right : Viewport
deriving DecidableEq

/-- The per-frame viewport layout of renderer.ts render:
squareSize = min(height, floor(width/2)), totalWidth = squareSize*2,
offsetX = max(0, floor((width-totalWidth)/2)),
offsetY = max(0, floor((height-squareSize)/2)); the left eye gets
viewport (offsetX, offsetY, squareSize, squareSize) and the right eye
(offsetX+squareSize, offsetY, squareSize, squareSize).  Canvas sizes are
unsigned integers, so ℕ division is exactly Math.floor here and every
subtraction is nonnegative. -/
def renderLayout (width height : ℕ) : StereoLayout :=
  let squareSize := min height (width / 2)
  let totalWidth := squareSize * 2
  let offsetX := max 0 ((width - totalWidth) / 2)
  let offsetY := max 0 ((height - squareSize) / 2)
  { squareSize := squareSize
    offsetX := offsetX
    offsetY := offsetY
    left := ⟨offsetX, offsetY, squareSize, squareSize⟩
    right := ⟨offsetX + squareSize, offsetY, squareSize, squareSize⟩ }

/-- The resizeCanvas method of renderer.ts: dpr falls back to 1 when the
reported devicePixelRatio is falsy (0), and both backing dimensions are
Math.max(1, Math.floor(client * dpr)). -/
def resizeCanvas (clientWidth clientHeight dpr : ℚ) : ℕ × ℕ :=
  let d := if dpr = 0 then 1 else dpr
  ((max 1 ⌊clientWidth * d⌋).toNat, (max 1 ⌊clientHeight * d⌋).toNat)

/-- The HTMLMediaElement HAVE_CURRENT_DATA readyState constant. -/
def HAVE_CURRENT_DATA : ℕ := 2

/-- The state of the video element the renderer reads each frame:
its readyState and an abstract identifier for the decoded frame that a
texImage2D upload would capture. -/
structure VideoSource where
  readyState : ℕ
  currentFrame : ℕ
deriving DecidableEq

/-- The updateVideoTexture method of renderer.ts: when
readyState < HAVE_CURRENT_DATA it returns without touching the texture,
otherwise it overwrites the texture with the current video frame. -/
def updateVideoTexture (video : VideoSource) (texture : ℕ) : ℕ :=
  if video.readyState < HAVE_CURRENT_DATA then texture else video.currentFrame

/-- One drawEye invocation as issued by render: the eye sign, the
viewport passed to gl.viewport, and the texture contents the draw
samples. -/
structure DrawCallRec where
  eyeSign : ℤ
  viewport : Viewport
  sampledFrame : ℕ
deriving DecidableEq

/-- The observable outcome of one render callback. -/
structure FrameResult where
  textureAfter : ℕ
  draws : List DrawCallRec
  rearmed : Bool
deriving DecidableEq

/-- One iteration of the render callback of renderer.ts (the per-frame
control flow relevant to texture upload and drawing): update the video
texture (a no-op when no frame is decoded), compute the stereo layout,
draw the left then the right eye against the current texture contents,
and re-arm via requestAnimationFrame.  The callback contains no throw
path, so it is embedded as a total function. -/
def renderFrame (video : VideoSource) (canvasWidth canvasHeight : ℕ)
    (textureBefore : ℕ) : FrameResult :=
  let tex := updateVideoTexture video textureBefore
  let L := renderLayout canvasWidth canvasHeight
  { textureAfter := tex
    draws := [⟨-1, L.left, tex⟩, ⟨1, L.right, tex⟩]
    rearmed := true }

/-- A color has every channel inside [0,1]. -/
def inRange01 (c : Vec3) : Prop :=
  0 ≤ c.r ∧ c.r ≤ 1 ∧ 0 ≤ c.g ∧ c.g ≤ 1 ∧ 0 ≤ c.b ∧ c.b ≤ 1

/-- A concrete uniform record used to instantiate theorems: calibration
on, a square 360×360 viewport, and otherwise neutral values (those of an
all-default ParameterSet drawn on a square viewport with eyeSign 0 and
separation 0). -/
def calibUniforms : Uniforms :=
  { uContrast := 1
    uBrightness := 0
    uGamma := 1
    uHighlights := 0
    uShadows := 0
    uScale := 1
    uOffset := ⟨0, 0⟩
    uSeparation := 0
    uEyeSign := 0
    uVideoAspect := 1
    uMagnifyEnabled := 0
    uMagnifyZoom := 1.6
    uSphereStrength := 0
    uSphereRadius := 0.5
    uK1 := 3.5
    uK2 := 2
    uDistortEnabled := 0
    uCalibrate := 1
    uResolution := ⟨360, 360⟩
    uFilterMode := 0
    uTexel := ⟨0.001, 0.002⟩ }

end

/-! ## Helper lemmas about the GLSL building blocks -/

theorem step_eq_zero {edge x : ℝ} (h : x < edge) : step edge x = 0 := if_pos h

theorem step_eq_one {edge x : ℝ} (h : edge ≤ x) : step edge x = 1 := if_neg (not_lt.mpr h)

theorem clampR_eq_self {x lo hi : ℝ} (h1 : lo ≤ x) (h2 : x ≤ hi) : clampR x lo hi = x := by
  rw [clampR, max_eq_left h1, min_eq_left h2]

theorem clampR_eq_lo {x lo hi : ℝ} (h : x ≤ lo) (hlh : lo ≤ hi) : clampR x lo hi = lo := by
  rw [clampR, max_eq_right h, min_eq_left hlh]

theorem clampR_eq_hi {x lo hi : ℝ} (h : hi ≤ x) : clampR x lo hi = hi := by
  rw [clampR, min_eq_right (le_trans h (le_max_left x lo))]

theorem clampR_mem {x lo hi : ℝ} (h : lo ≤ hi) :
    lo ≤ clampR x lo hi ∧ clampR x lo hi ≤ hi :=
  ⟨le_min (le_max_right x lo) h, min_le_right _ _⟩

theorem mixR_zero (a b : ℝ) : mixR a b 0 = a := by simp [mixR]

theorem mixR_one (a b : ℝ) : mixR a b 1 = b := by simp [mixR]

theorem mix2_zero (a b : Vec2) : mix2 a b 0 = a := by
  ext <;> simp [mix2, mixR]

theorem mix3_zero (a b : Vec3) : mix3 a b 0 = a := by
  ext <;> simp [mix3, mixR]

theorem mix3_one (a b : Vec3) : mix3 a b 1 = b := by
  ext <;> simp [mix3, mixR]

theorem smoothstep_eq_zero {e0 e1 x : ℝ} (hx : x ≤ e0) (he : e0 < e1) :
    smoothstep e0 e1 x = 0 := by
  have ht : (x - e0) / (e1 - e0) ≤ 0 :=
    div_nonpos_iff.mpr (Or.inr ⟨sub_nonpos.mpr hx, le_of_lt (sub_pos.mpr he)⟩)
  rw [smoothstep]
  rw [clampR_eq_lo ht (by norm_num)]
  ring

theorem smoothstep_eq_one {e0 e1 x : ℝ} (hx : e1 ≤ x) (he : e0 < e1) :
    smoothstep e0 e1 x = 1 := by
  have ht : 1 ≤ (x - e0) / (e1 - e0) :=
    (one_le_div (sub_pos.mpr he)).mpr (by linarith)
  rw [smoothstep]
  rw [clampR_eq_hi ht]
  ring

theorem applyDistortion_of_disabled {uK1 uK2 uDistortEnabled : ℝ}
    (h : uDistortEnabled < 0.5) (uv center : Vec2) :
    applyDistortion uK1 uK2 uDistortEnabled uv center = uv := by
  simp only [applyDistortion, step_eq_zero h, mix2_zero]

theorem sphereStage_of_inactive {u : Uniforms} {vUV center warped : Vec2}
    (h : ¬ clampR u.uSphereStrength 0.0 1.0 > 0.001) :
    sphereStage u vUV center warped = warped := by
  simp only [sphereStage]
  rw [if_neg h]

/-! ## Claim theorems -/

/-- C1: for every canvas pixel size (W, H) the per-frame viewport layout
computes the square eye-size S = min(H, ⌊W/2⌋), the centering offsets
offX = max(0, ⌊(W - 2S)/2⌋) and offY = max(0, ⌊(H - S)/2⌋), assigns the
left eye the viewport (offX, offY, S, S) and the right eye the viewport
(offX + S, offY, S, S); in particular both eye viewports have identical
width and height and left.x + S = right.x. -/
theorem viewport_layout_formulas (W H : ℕ) :
    (renderLayout W H).squareSize = min H (W / 2) ∧
    (renderLayout W H).offsetX = max 0 ((W - 2 * (renderLayout W H).squareSize) / 2) ∧
    (renderLayout W H).offsetY = max 0 ((H - (renderLayout W H).squareSize) / 2) ∧
    (renderLayout W H).left =
      ⟨(renderLayout W H).offsetX, (renderLayout W H).offsetY,
       (renderLayout W H).squareSize, (renderLayout W H).squareSize⟩ ∧
    (renderLayout W H).right =
      ⟨(renderLayout W H).offsetX + (renderLayout W H).squareSize, (renderLayout W H).offsetY,
       (renderLayout W H).squareSize, (renderLayout W H).squareSize⟩ ∧
    (renderLayout W H).left.width = (renderLayout W H).right.width ∧
    (renderLayout W H).left.height = (renderLayout W H).right.height ∧
    (renderLayout W H).left.x + (renderLayout W H).squareSize = (renderLayout W H).right.x := by
  refine ⟨rfl, ?_, rfl, rfl, rfl, rfl, rfl, rfl⟩
  show max 0 ((W - min H (W / 2) * 2) / 2) = max 0 ((W - 2 * min H (W / 2)) / 2)
  rw [Nat.mul_comm]

/-- C2 counterexample: on a 1280×720 canvas the layout's square size is
min(720, 640) = 640, so the viewports are 640×640 with offsets (0, 40),
not the 360×360 with offsets (280, 180) the claim states. -/
theorem default_layout_1280x720_refuted :
    (renderLayout 1280 720).squareSize ≠ 360 ∧
    (renderLayout 1280 720).left.width ≠ 360 ∧
    (renderLayout 1280 720).offsetX ≠ 280 ∧
    (renderLayout 1280 720).offsetY ≠ 180 := by
  refine ⟨?_, ?_, ?_, ?_⟩ <;> decide

/-- C2 amended: with a 1280×720 canvas at device-pixel ratio 1 (the
resize step reproduces 1280×720 exactly) the layout produces two 640×640
eye viewports with centering offsets offsetX = 0 and offsetY = 40
(the layout is independent of the ParameterSet). -/
theorem default_layout_1280x720 :
    resizeCanvas 1280 720 1 = (1280, 720) ∧
    (renderLayout 1280 720).squareSize = 640 ∧
    (renderLayout 1280 720).offsetX = 0 ∧
    (renderLayout 1280 720).offsetY = 40 ∧
    (renderLayout 1280 720).left = ⟨0, 40, 640, 640⟩ ∧
    (renderLayout 1280 720).right = ⟨640, 40, 640, 640⟩ := by
  refine ⟨?_, by decide, by decide, by decide, by decide, by decide⟩
  norm_num [resizeCanvas]
  decide

/-- C7 counterexample: the square eye-size is not clamped to 1 for
degenerate canvas dimensions — at W = 0 (and likewise at the reachable
post-clamp width W = 1) it is min(H, 0) = 0 and the produced eye
viewports have width 0. -/
theorem degenerate_layout_not_clamped :
    (renderLayout 0 720).squareSize = 0 ∧
    ¬ 1 ≤ (renderLayout 0 720).squareSize ∧
    (renderLayout 0 720).left.width = 0 ∧
    (renderLayout 1 720).squareSize = 0 ∧
    (renderLayout 1 720).left.width = 0 := by
  refine ⟨?_, ?_, ?_, ?_, ?_⟩ <;> decide

/-- C7 amended: the clamp-to-1 lives in resizeCanvas, which forces both
backing canvas dimensions to at least 1 before the layout runs (for any
client size and device-pixel ratio); the square eye-size itself is not
clamped — it is 0 when the canvas width is 0 or 1 — but whenever the
canvas is at least 2 pixels wide and 1 pixel tall the square size and
hence both viewport extents are at least 1. -/
theorem canvas_clamp_and_positive_layout (clientWidth clientHeight dpr : ℚ)
    (W H : ℕ) (hW : 2 ≤ W) (hH : 1 ≤ H) :
    1 ≤ (resizeCanvas clientWidth clientHeight dpr).1 ∧
    1 ≤ (resizeCanvas clientWidth clientHeight dpr).2 ∧
    1 ≤ (renderLayout W H).squareSize ∧
    1 ≤ (renderLayout W H).left.width ∧
    1 ≤ (renderLayout W H).left.height ∧
    1 ≤ (renderLayout W H).right.width ∧
    1 ≤ (renderLayout W H).right.height := by
  have hsq : 1 ≤ (renderLayout W H).squareSize := by
    show 1 ≤ min H (W / 2)
    refine le_min hH ?_
    omega
  have h1 : 1 ≤ (resizeCanvas clientWidth clientHeight dpr).1 := by
    have : (1 : ℤ) ≤ max 1 ⌊clientWidth * (if dpr = 0 then 1 else dpr)⌋ := le_max_left _ _
    simp only [resizeCanvas]
    omega
  have h2 : 1 ≤ (resizeCanvas clientWidth clientHeight dpr).2 := by
    have : (1 : ℤ) ≤ max 1 ⌊clientHeight * (if dpr = 0 then 1 else dpr)⌋ := le_max_left _ _
    simp only [resizeCanvas]
    omega
  exact ⟨h1, h2, hsq, hsq, hsq, hsq, hsq⟩

/-- Witness for the amended C7 theorem at client size 0×0, device pixel
ratio 1, canvas 1280×720. -/
theorem canvas_clamp_and_positive_layout_witness :
    2 ≤ 1280 ∧ 1 ≤ 720 ∧
    (1 ≤ (resizeCanvas 0 0 1).1 ∧
     1 ≤ (resizeCanvas 0 0 1).2 ∧
     1 ≤ (renderLayout 1280 720).squareSize ∧
     1 ≤ (renderLayout 1280 720).left.width ∧
     1 ≤ (renderLayout 1280 720).left.height ∧
     1 ≤ (renderLayout 1280 720).right.width ∧
     1 ≤ (renderLayout 1280 720).right.height) :=
  ⟨by norm_num, by norm_num,
   canvas_clamp_and_positive_layout 0 0 1 1280 720 (by norm_num) (by norm_num)⟩

/-- C3: drawEye performs exactly one fixed unit-scale step before
writing uniforms — k1 and k2 are multiplied by 0.1, sphereStrength is
divided by 100, sphereDiameter maps to 0.5·(sphereDiameter/100) — and
every other numeric parameter field is written through unscaled
(including the uTemperature and uMagnifySize writes, which carry the raw
field values).  With the defaults k1 = 35 and k2 = 20 the effective
shader coefficients are 3.5 and 2.0, and sphereDiameter 100 and 50 yield
sphereRadius 0.5 and 0.25. -/
theorem uniform_scaling (eyeSign offsetX offsetY videoAspect vw vh : ℝ)
    (texel : Vec2) (s : VRSettings) :
    (drawEyeUniforms eyeSign offsetX offsetY videoAspect vw vh texel s).uK1 = s.k1 * 0.1 ∧
    (drawEyeUniforms eyeSign offsetX offsetY videoAspect vw vh texel s).uK2 = s.k2 * 0.1 ∧
    (drawEyeUniforms eyeSign offsetX offsetY videoAspect vw vh texel s).uSphereStrength
      = s.sphereStrength / 100 ∧
    (drawEyeUniforms eyeSign offsetX offsetY videoAspect vw vh texel s).uSphereRadius
      = 0.5 * (s.sphereDiameter / 100) ∧
    (drawEyeUniforms eyeSign offsetX offsetY videoAspect vw vh texel s).uContrast = s.contrast ∧
    (drawEyeUniforms eyeSign offsetX offsetY videoAspect vw vh texel s).uBrightness = s.brightness ∧
    (drawEyeUniforms eyeSign offsetX offsetY videoAspect vw vh texel s).uGamma = s.gamma ∧
    (drawEyeUniforms eyeSign offsetX offsetY videoAspect vw vh texel s).uHighlights = s.highlights ∧
    (drawEyeUniforms eyeSign offsetX offsetY videoAspect vw vh texel s).uShadows = s.shadows ∧
    (drawEyeUniforms eyeSign offsetX offsetY videoAspect vw vh texel s).uScale = s.scale ∧
    (drawEyeUniforms eyeSign offsetX offsetY videoAspect vw vh texel s).uSeparation = s.separation ∧
    (drawEyeUniforms eyeSign offsetX offsetY videoAspect vw vh texel s).uMagnifyZoom
      = s.magnifierZoom ∧
    (drawEyeUniforms eyeSign offsetX offsetY videoAspect vw vh texel s).uOffset
      = ⟨offsetX, offsetY⟩ ∧
    ("uTemperature", UniformWrite.f1 s.temperature)
      ∈ drawEyeWrites eyeSign offsetX offsetY videoAspect vw vh s ∧
    ("uMagnifySize", UniformWrite.f1 s.magnifierSize)
      ∈ drawEyeWrites eyeSign offsetX offsetY videoAspect vw vh s ∧
    (drawEyeUniforms eyeSign offsetX offsetY videoAspect vw vh texel defaultSettings).uK1 = 3.5 ∧
    (drawEyeUniforms eyeSign offsetX offsetY videoAspect vw vh texel defaultSettings).uK2 = 2 ∧
    (drawEyeUniforms eyeSign offsetX offsetY videoAspect vw vh texel defaultSettings).uSphereRadius
      = 0.5 ∧
    (drawEyeUniforms eyeSign offsetX offsetY videoAspect vw vh texel
      { defaultSettings with sphereDiameter := 50 }).uSphereRadius = 0.25 := by
  refine ⟨rfl, rfl, rfl, rfl, rfl, rfl, rfl, rfl, rfl, rfl, rfl, rfl, rfl,
    ?_, ?_, ?_, ?_, ?_, ?_⟩
  · simp [drawEyeWrites]
  · simp [drawEyeWrites]
  · norm_num [drawEyeUniforms, distortionScale, defaultSettings]
  · norm_num [drawEyeUniforms, distortionScale, defaultSettings]
  · norm_num [drawEyeUniforms, defaultSettings]
  · norm_num [drawEyeUniforms, defaultSettings]

/-- C4: when distortionEnabled is false, the marshalled uDistortEnabled
gate is 0 and the radial lens-distortion stage is an exact identity on
every coordinate and center — the mix-based gate, not a branch, still
returns uv exactly — and hence, with the spherize stage inactive, the
sampled coordinate before color grading equals the scale/offset-adjusted
coordinate exactly. -/
theorem distortion_disabled_identity (s : VRSettings) (h : s.distortionEnabled = false)
    (eyeSign offsetX offsetY videoAspect vw vh : ℝ) (texel : Vec2)
    (uv center vUV : Vec2) :
    applyDistortion
      (drawEyeUniforms eyeSign offsetX offsetY videoAspect vw vh texel s).uK1
      (drawEyeUniforms eyeSign offsetX offsetY videoAspect vw vh texel s).uK2
      (drawEyeUniforms eyeSign offsetX offsetY videoAspect vw vh texel s).uDistortEnabled
      uv center = uv ∧
    (¬ clampR (drawEyeUniforms eyeSign offsetX offsetY videoAspect vw vh texel s).uSphereStrength
        0.0 1.0 > 0.001 →
      warpedCoord (drawEyeUniforms eyeSign offsetX offsetY videoAspect vw vh texel s) vUV
        = adjustedUV (drawEyeUniforms eyeSign offsetX offsetY videoAspect vw vh texel s) vUV) := by
  have hd : (drawEyeUniforms eyeSign offsetX offsetY videoAspect vw vh texel s).uDistortEnabled
      = 0 := by
    simp [drawEyeUniforms, h]
  have hlt : (drawEyeUniforms eyeSign offsetX offsetY videoAspect vw vh texel s).uDistortEnabled
      < 0.5 := by
    rw [hd]; norm_num
  refine ⟨applyDistortion_of_disabled hlt uv center, fun hs => ?_⟩
  rw [warpedCoord, sphereStage_of_inactive hs, applyDistortion_of_disabled hlt]

/-- Witness for the C4 theorem: defaults with distortion turned off, a
concrete eye, viewport and pixel. -/
theorem distortion_disabled_identity_witness :
    ({ defaultSettings with distortionEnabled := false } : VRSettings).distortionEnabled
      = false ∧
    (applyDistortion
      (drawEyeUniforms (-1) 0 0 1.5 360 360 ⟨0.001, 0.002⟩
        { defaultSettings with distortionEnabled := false }).uK1
      (drawEyeUniforms (-1) 0 0 1.5 360 360 ⟨0.001, 0.002⟩
        { defaultSettings with distortionEnabled := false }).uK2
      (drawEyeUniforms (-1) 0 0 1.5 360 360 ⟨0.001, 0.002⟩
        { defaultSettings with distortionEnabled := false }).uDistortEnabled
      ⟨0.3, 0.6⟩ ⟨0.5, 0.5⟩ = ⟨0.3, 0.6⟩ ∧
    (¬ clampR (drawEyeUniforms (-1) 0 0 1.5 360 360 ⟨0.001, 0.002⟩
        { defaultSettings with distortionEnabled := false }).uSphereStrength 0.0 1.0 > 0.001 →
      warpedCoord (drawEyeUniforms (-1) 0 0 1.5 360 360 ⟨0.001, 0.002⟩
        { defaultSettings with distortionEnabled := false }) ⟨0.25, 0.75⟩
        = adjustedUV (drawEyeUniforms (-1) 0 0 1.5 360 360 ⟨0.001, 0.002⟩
          { defaultSettings with distortionEnabled := false }) ⟨0.25, 0.75⟩)) :=
  ⟨rfl, distortion_disabled_identity { defaultSettings with distortionEnabled := false }
    rfl (-1) 0 0 1.5 360 360 ⟨0.001, 0.002⟩ ⟨0.3, 0.6⟩ ⟨0.5, 0.5⟩ ⟨0.25, 0.75⟩⟩

/-- C5: when the ParameterSet has sphereStrength 0, the marshalled
uSphereStrength is 0, the clamped strength fails the 0.001 activation
threshold, and the spherical-warp stage returns its input unchanged for
every pixel; the coordinate handed to sampling is exactly the
lens-distortion output. -/
theorem sphere_strength_zero_noop (s : VRSettings) (h : s.sphereStrength = 0)
    (eyeSign offsetX offsetY videoAspect vw vh : ℝ) (texel : Vec2)
    (vUV center warped : Vec2) :
    sphereStage (drawEyeUniforms eyeSign offsetX offsetY videoAspect vw vh texel s)
      vUV center warped = warped ∧
    warpedCoord (drawEyeUniforms eyeSign offsetX offsetY videoAspect vw vh texel s) vUV
      = applyDistortion
        (drawEyeUniforms eyeSign offsetX offsetY videoAspect vw vh texel s).uK1
        (drawEyeUniforms eyeSign offsetX offsetY videoAspect vw vh texel s).uK2
        (drawEyeUniforms eyeSign offsetX offsetY videoAspect vw vh texel s).uDistortEnabled
        (adjustedUV (drawEyeUniforms eyeSign offsetX offsetY videoAspect vw vh texel s) vUV)
        (centerPoint (drawEyeUniforms eyeSign offsetX offsetY videoAspect vw vh texel s)) := by
  have hss : (drawEyeUniforms eyeSign offsetX offsetY videoAspect vw vh texel s).uSphereStrength
      = 0 := by
    simp [drawEyeUniforms, h]
  have hcl : ¬ clampR
      (drawEyeUniforms eyeSign offsetX offsetY videoAspect vw vh texel s).uSphereStrength
      0.0 1.0 > 0.001 := by
    rw [hss, clampR_eq_self (by norm_num) (by norm_num)]
    norm_num
  exact ⟨sphereStage_of_inactive hcl, by rw [warpedCoord, sphereStage_of_inactive hcl]⟩

/-- Witness for the C5 theorem: the defaults (sphereStrength is 0 by
default) at a concrete eye, viewport and pixel. -/
theorem sphere_strength_zero_noop_witness :
    (defaultSettings).sphereStrength = 0 ∧
    (sphereStage (drawEyeUniforms 1 0 0 1.5 360 360 ⟨0.001, 0.002⟩ defaultSettings)
      ⟨0.25, 0.75⟩ ⟨0.5, 0.5⟩ ⟨0.4, 0.7⟩ = ⟨0.4, 0.7⟩ ∧
    warpedCoord (drawEyeUniforms 1 0 0 1.5 360 360 ⟨0.001, 0.002⟩ defaultSettings) ⟨0.25, 0.75⟩
      = applyDistortion
        (drawEyeUniforms 1 0 0 1.5 360 360 ⟨0.001, 0.002⟩ defaultSettings).uK1
        (drawEyeUniforms 1 0 0 1.5 360 360 ⟨0.001, 0.002⟩ defaultSettings).uK2
        (drawEyeUniforms 1 0 0 1.5 360 360 ⟨0.001, 0.002⟩ defaultSettings).uDistortEnabled
        (adjustedUV (drawEyeUniforms 1 0 0 1.5 360 360 ⟨0.001, 0.002⟩ defaultSettings)
          ⟨0.25, 0.75⟩)
        (centerPoint (drawEyeUniforms 1 0 0 1.5 360 360 ⟨0.001, 0.002⟩ defaultSettings))) :=
  ⟨rfl, sphere_strength_zero_noop defaultSettings rfl 1 0 0 1.5 360 360 ⟨0.001, 0.002⟩
    ⟨0.25, 0.75⟩ ⟨0.5, 0.5⟩ ⟨0.4, 0.7⟩⟩

theorem inRange01_clamp3 (c : Vec3) : inRange01 (clamp3 c 0.0 1.0) := by
  have hb : ((0.0 : ℝ)) ≤ 1.0 := by norm_num
  refine ⟨?_, ?_, ?_, ?_, ?_, ?_⟩ <;>
    first
      | exact le_trans (by norm_num) (clampR_mem hb).1
      | exact le_trans (clampR_mem hb).2 (by norm_num)

/-- C6: for every uniform record (gamma of any sign included) and every
input color with channels in [0,1], the gamma exponent divisor is
floored at the 0.001 epsilon (so the exponent is a well-defined positive
real, never a division by zero), the base handed to the power stage is
pre-clamped into [0,1], and the color applyColor returns has every
channel in [0,1]. -/
theorem apply_color_safe (u : Uniforms) (c : Vec3)
    (h1 : 0 ≤ c.r) (h2 : c.r ≤ 1) (h3 : 0 ≤ c.g) (h4 : c.g ≤ 1)
    (h5 : 0 ≤ c.b) (h6 : c.b ≤ 1) :
    0.001 ≤ max u.uGamma 0.001 ∧
    0 < 1.0 / max u.uGamma 0.001 ∧
    inRange01 (clamp3
      (Vec3.adds (Vec3.adds (Vec3.smul (Vec3.subs c 0.5) u.uContrast) 0.5) u.uBrightness)
      0.0 1.0) ∧
    inRange01 (applyColor u c) := by
  refine ⟨le_max_right _ _, ?_, inRange01_clamp3 _, ?_⟩
  · exact div_pos (by norm_num) (lt_of_lt_of_le (by norm_num) (le_max_right u.uGamma 0.001))
  · simp only [applyColor]
    exact inRange01_clamp3 _

/-- Witness for the C6 theorem: a concrete uniform record and the mid
gray color. -/
theorem apply_color_safe_witness :
    ((0:ℝ) ≤ 0.5 ∧ (0.5:ℝ) ≤ 1 ∧ (0:ℝ) ≤ 0.25 ∧ (0.25:ℝ) ≤ 1 ∧ (0:ℝ) ≤ 1 ∧ (1:ℝ) ≤ 1) ∧
    (0.001 ≤ max calibUniforms.uGamma 0.001 ∧
     0 < 1.0 / max calibUniforms.uGamma 0.001 ∧
     inRange01 (clamp3
       (Vec3.adds (Vec3.adds (Vec3.smul (Vec3.subs ⟨0.5, 0.25, 1⟩ 0.5) calibUniforms.uContrast)
         0.5) calibUniforms.uBrightness) 0.0 1.0) ∧
     inRange01 (applyColor calibUniforms ⟨0.5, 0.25, 1⟩)) :=
  ⟨⟨by norm_num, by norm_num, by norm_num, by norm_num, by norm_num, by norm_num⟩,
   apply_color_safe calibUniforms ⟨0.5, 0.25, 1⟩ (by norm_num) (by norm_num) (by norm_num)
     (by norm_num) (by norm_num) (by norm_num)⟩

/-- C8 counterexample: at the screen center of a 360×360 viewport with
calibration on and an all-white graded color, the source overlay
compositing darkens the green channel to 0.865, while additive
compositing of the same masks over the same base keeps it at 1 — the
overlay is mix-composited, not additively blended. -/
theorem calibration_not_additive :
    (calibrationStageWebGL1 calibUniforms ⟨0.5, 0.5⟩ ⟨0.5, 0.5⟩ ⟨1, 1, 1⟩).g = 0.865 ∧
    (calibrationStageAdditive calibUniforms ⟨0.5, 0.5⟩ ⟨0.5, 0.5⟩ ⟨1, 1, 1⟩).g = 1 ∧
    calibrationStageWebGL1 calibUniforms ⟨0.5, 0.5⟩ ⟨0.5, 0.5⟩ ⟨1, 1, 1⟩
      ≠ calibrationStageAdditive calibUniforms ⟨0.5, 0.5⟩ ⟨0.5, 0.5⟩ ⟨1, 1, 1⟩ := by
  have hc1 : step 0.5 (1 : ℝ) > 0.5 := by
    rw [step_eq_one (by norm_num : (0.5 : ℝ) ≤ 1)]
    norm_num
  have e1 : (calibrationStageWebGL1 calibUniforms ⟨0.5, 0.5⟩ ⟨0.5, 0.5⟩ ⟨1, 1, 1⟩).g
      = 0.865 := by
    simp only [calibrationStageWebGL1, calibUniforms]
    rw [if_pos hc1]
    norm_num [clamp2, lineMask, glFract, Vec2.subs, Vec2.length, Vec2.dot, mix3, mixR,
      smoothstep_eq_zero, smoothstep_eq_one, clampR_eq_self, clampR_eq_lo, clampR_eq_hi,
      Real.sqrt_zero, min_self, max_eq_right, max_self, abs_of_nonpos, abs_of_nonneg]
  have e2 : (calibrationStageAdditive calibUniforms ⟨0.5, 0.5⟩ ⟨0.5, 0.5⟩ ⟨1, 1, 1⟩).g
      = 1 := by
    simp only [calibrationStageAdditive, calibUniforms]
    rw [if_pos hc1]
    norm_num [clamp2, clamp3, lineMask, glFract, Vec2.subs, Vec2.length, Vec2.dot, mix3, mixR,
      Vec3.add, Vec3.smul, smoothstep_eq_zero, smoothstep_eq_one, clampR_eq_self, clampR_eq_lo,
      clampR_eq_hi, Real.sqrt_zero, min_self, max_eq_right, max_self, abs_of_nonpos,
      abs_of_nonneg]
  refine ⟨e1, e2, fun heq => ?_⟩
  rw [heq, e2] at e1
  norm_num at e1

/-- C8 amended: when calibration is enabled (the step gate passes for
uCalibrate ≥ 0.5), the WebGL1 overlay draws the period-6 grid on the
warped coordinate clamped to [0,1], the crosshair at the screen center,
and the two rings at radii 0.25 and 0.40, all with thicknesses
proportional to 1/min(viewport extents) (floored at 1); the grid is
composited onto the graded color by mix with weight grid·0.8 and the
cross/ring overlay by mix with weight overlay·0.45 — linear
interpolation toward the overlay colors, not additive blending. -/
theorem calibration_overlay_shape (u : Uniforms) (vUV warped : Vec2) (color : Vec3)
    (h : 0.5 ≤ u.uCalibrate) :
    calibrationStageWebGL1 u vUV warped color =
      (let px := 1.0 / max 1.0 (min u.uResolution.x u.uResolution.y)
       let gridThickness := px * 6.0
       let ringThickness := px * 1.6
       let gridUV := clamp2 warped 0.0 1.0
       let grid := max (lineMask gridUV.x 6.0 gridThickness) (lineMask gridUV.y 6.0 gridThickness)
       let crossX := 1.0 - smoothstep 0.0 (gridThickness * 1) |vUV.x - 0.5|
       let crossY := 1.0 - smoothstep 0.0 (gridThickness * 1) |vUV.y - 0.5|
       let cross := max crossX crossY
       let r := Vec2.length (Vec2.subs vUV 0.5)
       let ring1 := 1.0 - smoothstep ringThickness (ringThickness * 3.0) |r - 0.25|
       let ring2 := 1.0 - smoothstep ringThickness (ringThickness * 3.0) |r - 0.4|
       mix3 (mix3 color ⟨0.08, 0.92, 1.0⟩ (grid * 0.8))
         (mix3 ⟨0.12, 1.0, 0.7⟩ ⟨1.0, 0.7, 0.25⟩ cross)
         (max cross (max ring1 ring2 * 0.45) * 0.45)) := by
  have hc : step 0.5 u.uCalibrate > 0.5 := by
    rw [step_eq_one h]
    norm_num
  simp only [calibrationStageWebGL1]
  rw [if_pos hc]

/-- Witness for the amended C8 theorem at the concrete calibration
uniforms, pixel (0.25, 0.5), warped coordinate (0.3, 0.7), and color
(0.2, 0.4, 0.6). -/
theorem calibration_overlay_shape_witness :
    0.5 ≤ calibUniforms.uCalibrate ∧
    calibrationStageWebGL1 calibUniforms ⟨0.25, 0.5⟩ ⟨0.3, 0.7⟩ ⟨0.2, 0.4, 0.6⟩ =
      (let px := 1.0 / max 1.0 (min calibUniforms.uResolution.x calibUniforms.uResolution.y)
       let gridThickness := px * 6.0
       let ringThickness := px * 1.6
       let gridUV := clamp2 ⟨0.3, 0.7⟩ 0.0 1.0
       let grid := max (lineMask gridUV.x 6.0 gridThickness) (lineMask gridUV.y 6.0 gridThickness)
       let crossX := 1.0 - smoothstep 0.0 (gridThickness * 1) |(0.25 : ℝ) - 0.5|
       let crossY := 1.0 - smoothstep 0.0 (gridThickness * 1) |(0.5 : ℝ) - 0.5|
       let cross := max crossX crossY
       let r := Vec2.length (Vec2.subs ⟨0.25, 0.5⟩ 0.5)
       let ring1 := 1.0 - smoothstep ringThickness (ringThickness * 3.0) |r - 0.25|
       let ring2 := 1.0 - smoothstep ringThickness (ringThickness * 3.0) |r - 0.4|
       mix3 (mix3 ⟨0.2, 0.4, 0.6⟩ ⟨0.08, 0.92, 1.0⟩ (grid * 0.8))
         (mix3 ⟨0.12, 1.0, 0.7⟩ ⟨1.0, 0.7, 0.25⟩ cross)
         (max cross (max ring1 ring2 * 0.45) * 0.45)) :=
  ⟨by norm_num [calibUniforms],
   calibration_overlay_shape calibUniforms ⟨0.25, 0.5⟩ ⟨0.3, 0.7⟩ ⟨0.2, 0.4, 0.6⟩
     (by norm_num [calibUniforms])⟩

/-- C9: when the video source has no decoded frame ready
(readyState < HAVE_CURRENT_DATA), the frame's texture upload is skipped
(texture contents unchanged), both eye draws still execute against the
existing texture contents, and the callback re-arms for the next frame;
the callback has no failure path, so nothing is surfaced to the caller. -/
theorem render_skips_upload_when_not_ready (video : VideoSource) (W H texBefore : ℕ)
    (h : video.readyState < HAVE_CURRENT_DATA) :
    (renderFrame video W H texBefore).textureAfter = texBefore ∧
    (renderFrame video W H texBefore).draws =
      [⟨-1, (renderLayout W H).left, texBefore⟩, ⟨1, (renderLayout W H).right, texBefore⟩] ∧
    (renderFrame video W H texBefore).draws.length = 2 ∧
    (∀ d ∈ (renderFrame video W H texBefore).draws, d.sampledFrame = texBefore) ∧
    (renderFrame video W H texBefore).rearmed = true := by
  have hu : updateVideoTexture video texBefore = texBefore := if_pos h
  refine ⟨hu, ?_, rfl, ?_, rfl⟩
  · simp only [renderFrame, hu]
  · intro d hd
    simp only [renderFrame, hu, List.mem_cons, List.not_mem_nil, or_false] at hd
    rcases hd with rfl | rfl <;> rfl

/-- Witness for the C9 theorem: a video source with readyState 1 (below
HAVE_CURRENT_DATA) holding an undrawn frame 99, a 1280×720 canvas, and
existing texture contents 7. -/
theorem render_skips_upload_when_not_ready_witness :
    (⟨1, 99⟩ : VideoSource).readyState < HAVE_CURRENT_DATA ∧
    ((renderFrame ⟨1, 99⟩ 1280 720 7).textureAfter = 7 ∧
     (renderFrame ⟨1, 99⟩ 1280 720 7).draws =
       [⟨-1, (renderLayout 1280 720).left, 7⟩, ⟨1, (renderLayout 1280 720).right, 7⟩] ∧
     (renderFrame ⟨1, 99⟩ 1280 720 7).draws.length = 2 ∧
     (∀ d ∈ (renderFrame ⟨1, 99⟩ 1280 720 7).draws, d.sampledFrame = 7) ∧
     (renderFrame ⟨1, 99⟩ 1280 720 7).rearmed = true) :=
  ⟨by decide, render_skips_upload_when_not_ready ⟨1, 99⟩ 1280 720 7 (by decide)⟩

/-- C10: the marshaller writes the temperature and magnifierSize fields
as the uTemperature and uMagnifySize uniforms (raw values), but neither
fragment shader variant declares those uniform names, so the writes are
dropped; consequently for any two ParameterSets differing only in
temperature and/or magnifierSize, both shader variants produce the
identical per-pixel output on every texture and pixel. -/
theorem temperature_magnifier_size_noop (eyeSign offsetX offsetY videoAspect vw vh : ℝ)
    (texel : Vec2) (s : VRSettings) (t ms : ℝ) (tex : Vec2 → Vec3) (vUV : Vec2) :
    ("uTemperature", UniformWrite.f1 t)
      ∈ drawEyeWrites eyeSign offsetX offsetY videoAspect vw vh
          { s with temperature := t, magnifierSize := ms } ∧
    ("uMagnifySize", UniformWrite.f1 ms)
      ∈ drawEyeWrites eyeSign offsetX offsetY videoAspect vw vh
          { s with temperature := t, magnifierSize := ms } ∧
    ¬ (("uTemperature" : String) ∈ fragmentWebGL1UniformNames) ∧
    ¬ (("uMagnifySize" : String) ∈ fragmentWebGL1UniformNames) ∧
    ¬ (("uTemperature" : String) ∈ fragmentWebGL2UniformNames) ∧
    ¬ (("uMagnifySize" : String) ∈ fragmentWebGL2UniformNames) ∧
    fragMainWebGL1 tex (drawEyeUniforms eyeSign offsetX offsetY videoAspect vw vh texel
        { s with temperature := t, magnifierSize := ms }) vUV
      = fragMainWebGL1 tex
          (drawEyeUniforms eyeSign offsetX offsetY videoAspect vw vh texel s) vUV ∧
    fragMainWebGL2 tex (drawEyeUniforms eyeSign offsetX offsetY videoAspect vw vh texel
        { s with temperature := t, magnifierSize := ms }) vUV
      = fragMainWebGL2 tex
          (drawEyeUniforms eyeSign offsetX offsetY videoAspect vw vh texel s) vUV := by
  refine ⟨?_, ?_, by decide, by decide, by decide, by decide, rfl, rfl⟩
  · simp [drawEyeWrites]
  · simp [drawEyeWrites]

end VRApp
